import Mathlib

/-!
Verification of the mern-thinkboard backend: the fixed-window rate limiter
(modelled from the spec, its middleware source being absent from the
snapshot), the Express middleware pipeline order (server entry files), and
the notes CRUD controller (notesController).
-/

namespace ThinkBoard

/-! ## Rate limiter (fixed-window counter) -/

/-- Modelled from the spec: `LIMIT`, requests per window (source uses 10). -/
def LIMIT : Nat := 10

/-- Modelled from the spec: `WINDOW_SECONDS` (source uses 10 seconds). -/
def WINDOW_SECONDS : Nat := 10

/-- Modelled from the spec: the rate-limit counter record held in the shared
counter store: `count` requests observed in the current window, `expiry` the
timestamp at which the record expires (TTL). -/
structure CounterRecord where
  count : Nat
  expiry : Nat
  deriving DecidableEq, Repr

/-- The allow/reject decision of the limiter. -/
inductive Decision where
  | allow
  | reject
  deriving DecidableEq, Repr

/-- Modelled from the spec: `check_and_increment()` of the rate limiter,
whose middleware source file is not in the snapshot. Behavior per §4.1:
fetch the counter record (a record whose TTL has elapsed is absent); if no
record exists create one with `count = 1` and expiry `WINDOW_SECONDS` from
now and allow; if `count < LIMIT` increment and allow; otherwise reject
without incrementing. -/
def check_and_increment (now : Nat) (s : Option CounterRecord) :
    Decision × Option CounterRecord :=
  let cur : Option CounterRecord :=
    match s with
    | some r => if now < r.expiry then some r else none
    | none => none
  match cur with
  | none => (Decision.allow, some ⟨1, now + WINDOW_SECONDS⟩)
  | some r =>
      if r.count < LIMIT then (Decision.allow, some ⟨r.count + 1, r.expiry⟩)
      else (Decision.reject, some r)

/-- Run a sequence of `check_and_increment` calls at the given timestamps,
threading the counter state and collecting the decisions. -/
def runCalls : List Nat → Option CounterRecord → List Decision × Option CounterRecord
  | [], s => ([], s)
  | t :: ts, s =>
      let p := check_and_increment t s
      let q := runCalls ts p.2
      (p.1 :: q.1, q.2)

/-- Number of allowed requests in a decision list. -/
def numAllow : List Decision → Nat
  | [] => 0
  | Decision.allow :: ds => numAllow ds + 1
  | Decision.reject :: ds => numAllow ds

/-- The count stored in an optional counter record (an absent record counts
as zero). -/
def countOf : Option CounterRecord → Nat
  | none => 0
  | some r => r.count

/-! ## Middleware pipeline -/

/-- An HTTP response: status code and a JSON message body. -/
structure RLResponse where
  status : Nat
  message : String
  deriving DecidableEq, Repr

/-- Outcome of the limiter middleware for one request: hand the request to
the next middleware, or respond and stop the pipeline. -/
inductive MiddlewareResult where
  | next
  | respond (r : RLResponse)
  deriving DecidableEq, Repr

/-- Whether the shared counter store round trip succeeds on this request, or
raises an error (including timeout). -/
inductive StoreOutcome where
  | ok
  | fails
  deriving DecidableEq, Repr

/-- Modelled from the spec: the rate limiter middleware. If the counter
store raises on get/increment, the error handler returns 500 "Internal
server error" (fail closed). On reject, stop the pipeline with 429 "Too
many requests, please try again later". On allow, fall through to the next
middleware. -/
def rateLimiterMiddleware (out : StoreOutcome) (now : Nat)
    (s : Option CounterRecord) : MiddlewareResult × Option CounterRecord :=
  match out with
  | StoreOutcome.fails => (MiddlewareResult.respond ⟨500, "Internal server error"⟩, s)
  | StoreOutcome.ok =>
      match check_and_increment now s with
      | (Decision.allow, s') => (MiddlewareResult.next, s')
      | (Decision.reject, s') =>
          (MiddlewareResult.respond ⟨429, "Too many requests, please try again later"⟩, s')

/-- Result of pushing one request through the limiter stage of the
pipeline: whether the downstream CRUD handler was invoked, the short-circuit
response if any, and the counter state afterwards. -/
structure PipelineResult where
  handlerInvoked : Bool
  shortCircuit : Option RLResponse
  state : Option CounterRecord
  deriving DecidableEq, Repr

/-- One inbound request through the pipeline: the limiter middleware runs
first; the CRUD handler is invoked exactly when the limiter hands over with
`next`. -/
def runPipeline (out : StoreOutcome) (now : Nat)
    (s : Option CounterRecord) : PipelineResult :=
  match rateLimiterMiddleware out now s with
  | (MiddlewareResult.next, s') => ⟨true, none, s'⟩
  | (MiddlewareResult.respond r, s') => ⟨false, some r, s'⟩

/-! ## Express app middleware registration (server entry files)

The two server entry variants register middleware in a fixed order with
`app.use`; the notes router is mounted at `/api/notes` after the limiter. -/

/-- The middleware/route registrations appearing in the server entry files. -/
inductive Registration where
  | expressJson
  | urlencoded
  | rateLimiterReg
  | corsReg
  | notesRouter
  | staticServe
  | spaFallback
  deriving DecidableEq, Repr

/-- Registration order in the first server entry variant:
`express.json()`, `express.urlencoded(...)`, `rateLimiter`, `cors()`, then
the notes router at `/api/notes`. -/
def serverRegistrations : List Registration :=
  [Registration.expressJson, Registration.urlencoded, Registration.rateLimiterReg,
   Registration.corsReg, Registration.notesRouter]

/-- Registration order in the second server entry variant, which branches on
`NODE_ENV`: cors only outside production, static file serving and the SPA
fallback only in production; the limiter always precedes the router. -/
def serverRegistrationsEnv (production : Bool) : List Registration :=
  [Registration.expressJson, Registration.urlencoded, Registration.rateLimiterReg]
    ++ (if production then [] else [Registration.corsReg])
    ++ [Registration.notesRouter]
    ++ (if production then [Registration.staticServe, Registration.spaFallback] else [])

/-! ## Notes CRUD controller (notesController)

The handlers use a Mongoose model `Note`; we embed the document collection
as a list of notes and the query-builder calls as functions on it. Only the
non-throwing path is modelled (the `catch` branches respond 500). -/

/-- A note document: Mongoose id, title, content, `createdAt` timestamp. -/
structure Note where
  id : Nat
  title : String
  content : String
  createdAt : Nat
  deriving DecidableEq, Repr

/-- JSON response body of a controller handler. -/
inductive Body where
  | noteList (ns : List Note)
  | note (n : Note)
  | nullBody
  | msg (s : String)
  deriving DecidableEq, Repr

/-- An HTTP response of a controller handler. -/
structure HttpResponse where
  status : Nat
  body : Body
  deriving DecidableEq, Repr

/-- `Note.findById(id)`: the document with that id, if any. -/
def findById (db : List Note) (id : Nat) : Option Note :=
  db.find? (fun n => n.id == id)

/-- `Note.findByIdAndUpdate(id, {title, content}, {new: true})`: update the
matching document and return the updated document, or null when no document
has that id. -/
def findByIdAndUpdate (db : List Note) (id : Nat) (title content : String) :
    Option Note × List Note :=
  match findById db id with
  | none => (none, db)
  | some n =>
      let n' : Note := { n with title := title, content := content }
      (some n', db.map (fun m => if m.id == id then n' else m))

/-- `Note.findByIdAndDelete(id)`: remove the matching document and return
it, or null when no document has that id. -/
def findByIdAndDelete (db : List Note) (id : Nat) :
    Option Note × List Note :=
  match findById db id with
  | none => (none, db)
  | some n => (some n, db.filter (fun m => m.id != id))

/-- JavaScript truthiness of a function object: always truthy. The guards in
the source's `updateNote` and `deleteNote` test `!updateNote` and
`!deleteNote` — the handler functions themselves — rather than the query
results `updatedNote` / `deletedNote`. -/
def jsFunctionTruthy : Bool := true

/-- `getAllNotes`: `Note.find().sort(\x7b createdAt: -1 \x7d)` — all notes,
newest first — with status 200. -/
def getAllNotes (db : List Note) : HttpResponse :=
  ⟨200, Body.noteList (db.insertionSort (fun a b => b.createdAt ≤ a.createdAt))⟩

/-- `getNoteById`: 404 "Note not found" when no document has the id,
otherwise 200 with the document. -/
def getNoteById (id : Nat) (db : List Note) : HttpResponse :=
  match findById db id with
  | none => ⟨404, Body.msg "Note not found"⟩
  | some n => ⟨200, Body.note n⟩

/-- `updateNote`: runs `findByIdAndUpdate`, then tests `if (!updateNote)` —
the truthiness of the handler function, not of `updatedNote` — before
responding 200 with the (possibly null) updated document. -/
def updateNote (id : Nat) (title content : String) (db : List Note) :
    HttpResponse × List Note :=
  let p := findByIdAndUpdate db id title content
  if ! jsFunctionTruthy then (⟨404, Body.msg "Note not found"⟩, p.2)
  else
    (⟨200, match p.1 with
           | some n => Body.note n
           | none => Body.nullBody⟩, p.2)

/-- `deleteNote`: runs `findByIdAndDelete`, then tests `if (!deleteNote)` —
the truthiness of the handler function, not of `deletedNote` — before
responding 200 with the deletion message. -/
def deleteNote (id : Nat) (db : List Note) : HttpResponse × List Note :=
  let p := findByIdAndDelete db id
  if ! jsFunctionTruthy then (⟨404, Body.msg "Note not found"⟩, p.2)
  else (⟨200, Body.msg "Note has been deleted"⟩, p.2)

/-! ## Helper lemmas about the limiter -/

/-- Stepping the limiter while the record is live and below the limit:
allow, and increment. -/
theorem check_step_allow (t k e : Nat) (ht : t < e) (hk : k < LIMIT) :
    check_and_increment t (some ⟨k, e⟩) =
      (Decision.allow, some ⟨k + 1, e⟩) := by
  simp [check_and_increment, ht, hk]

/-- Stepping the limiter while the record is live and at or over the limit:
reject, state untouched. -/
theorem check_step_reject (t k e : Nat) (ht : t < e) (hk : ¬ k < LIMIT) :
    check_and_increment t (some ⟨k, e⟩) = (Decision.reject, some ⟨k, e⟩) := by
  simp [check_and_increment, ht, hk]

/-- A run of calls all inside a live window, with room below the limit:
every call is allowed and the count advances by the number of calls. -/
theorem runCalls_allow_run (ts : List Nat) (k e : Nat)
    (hk : k + ts.length ≤ LIMIT) (he : ∀ t ∈ ts, t < e) :
    runCalls ts (some ⟨k, e⟩) =
      (List.replicate ts.length Decision.allow, some ⟨k + ts.length, e⟩) := by
  induction ts generalizing k with
  | nil => simp [runCalls]
  | cons t ts ih =>
      have ht : t < e := he t (List.mem_cons_self t ts)
      have hk1 : k < LIMIT := by simp at hk; omega
      have hrest : k + 1 + ts.length ≤ LIMIT := by simp at hk; omega
      simp only [runCalls, check_step_allow t k e ht hk1,
        ih (k + 1) hrest (fun t htm => he t (List.mem_cons_of_mem _ htm)),
        List.length_cons, List.replicate_succ]
      have hadd : k + 1 + ts.length = k + (ts.length + 1) := by omega
      rw [hadd]

/-- A run of calls all inside a live window whose counter already reached
the limit: every call is rejected and the state never changes. -/
theorem runCalls_reject_run (ts : List Nat) (e : Nat)
    (he : ∀ t ∈ ts, t < e) :
    runCalls ts (some ⟨LIMIT, e⟩) =
      (List.replicate ts.length Decision.reject, some ⟨LIMIT, e⟩) := by
  induction ts with
  | nil => simp [runCalls]
  | cons t ts ih =>
      have ht : t < e := he t (List.mem_cons_self t ts)
      simp only [runCalls, check_step_reject t LIMIT e ht (Nat.lt_irrefl LIMIT),
        ih (fun t htm => he t (List.mem_cons_of_mem _ htm)),
        List.length_cons, List.replicate_succ]

/-- Within a live window the number of allowed calls is bounded by the
remaining quota. -/
theorem numAllow_runCalls_le (ts : List Nat) (k e : Nat) (hk : k ≤ LIMIT)
    (he : ∀ t ∈ ts, t < e) :
    numAllow (runCalls ts (some ⟨k, e⟩)).1 ≤ LIMIT - k := by
  induction ts generalizing k with
  | nil => simp [runCalls, numAllow]
  | cons t ts ih =>
      have ht : t < e := he t (List.mem_cons_self t ts)
      have he' : ∀ t ∈ ts, t < e := fun t htm => he t (List.mem_cons_of_mem _ htm)
      by_cases hkl : k < LIMIT
      · simp only [runCalls, check_step_allow t k e ht hkl, numAllow]
        have := ih (k + 1) hkl he'
        omega
      · simp only [runCalls, check_step_reject t k e ht hkl, numAllow]
        have := ih k hk he'
        omega

/-! ## Claim theorems -/

/-- C1: every sequence of at most LIMIT `check_and_increment` calls whose
timestamps all fall within one window of WINDOW_SECONDS is fully allowed;
the first call of the window creates the counter record with count = 1, and
each later call increments the count by 1, so the final count equals the
number of calls. -/
theorem c1_all_allowed_within_window (t0 : Nat) (ts : List Nat)
    (hlen : ts.length + 1 ≤ LIMIT)
    (hwin : ∀ t ∈ ts, t < t0 + WINDOW_SECONDS) :
    check_and_increment t0 none =
      (Decision.allow, some ⟨1, t0 + WINDOW_SECONDS⟩) ∧
    runCalls (t0 :: ts) none =
      (List.replicate (ts.length + 1) Decision.allow,
       some ⟨ts.length + 1, t0 + WINDOW_SECONDS⟩) := by
  have hfirst : check_and_increment t0 none =
      (Decision.allow, some ⟨1, t0 + WINDOW_SECONDS⟩) := rfl
  refine ⟨hfirst, ?_⟩
  simp only [runCalls, hfirst,
    runCalls_allow_run ts 1 (t0 + WINDOW_SECONDS) (by omega) hwin,
    List.replicate_succ]
  exact congrArg _ (congrArg _ (by simp [Nat.add_comm]))

/-- C1 witness: ten calls at timestamps 0..9 starting from an empty store
are all allowed, ending at count 10. -/
theorem c1_all_allowed_within_window_witness :
    check_and_increment 0 none =
      (Decision.allow, some ⟨1, 0 + WINDOW_SECONDS⟩) ∧
    runCalls (0 :: [1, 2, 3, 4, 5, 6, 7, 8, 9]) none =
      (List.replicate ([1, 2, 3, 4, 5, 6, 7, 8, 9].length + 1) Decision.allow,
       some ⟨[1, 2, 3, 4, 5, 6, 7, 8, 9].length + 1, 0 + WINDOW_SECONDS⟩) :=
  c1_all_allowed_within_window 0 [1, 2, 3, 4, 5, 6, 7, 8, 9]
    (by decide) (by decide)

/-- C2: once the counter has reached count = LIMIT, every further call
within the live window is rejected and leaves the counter unchanged, so the
count never exceeds LIMIT and repeated rejected calls never mutate it;
moreover a single step never pushes any count that is at most LIMIT above
LIMIT. -/
theorem c2_reject_at_limit (e : Nat) (ts : List Nat)
    (he : ∀ t ∈ ts, t < e) :
    runCalls ts (some ⟨LIMIT, e⟩) =
      (List.replicate ts.length Decision.reject, some ⟨LIMIT, e⟩) ∧
    ∀ now s, countOf s ≤ LIMIT →
      countOf (check_and_increment now s).2 ≤ LIMIT := by
  refine ⟨runCalls_reject_run ts e he, ?_⟩
  intro now s hs
  match s with
  | none => simp [check_and_increment, countOf, LIMIT]
  | some r =>
      by_cases ht : now < r.expiry
      · by_cases hk : r.count < LIMIT
        · simp [check_step_allow now r.count r.expiry ht hk, countOf]
          omega
        · simp [check_step_reject now r.count r.expiry ht hk, countOf]
          exact hs
      · simp [check_and_increment, ht, countOf, LIMIT]

/-- C2 witness: two calls at timestamps 3 and 4 against a full window
(count = LIMIT, expiry 10) are both rejected without mutating the record,
and one step from count 7 stays at most LIMIT. -/
theorem c2_reject_at_limit_witness :
    runCalls [3, 4] (some ⟨LIMIT, 10⟩) =
      (List.replicate 2 Decision.reject, some ⟨LIMIT, 10⟩) ∧
    countOf (check_and_increment 5 (some ⟨7, 10⟩)).2 ≤ LIMIT :=
  ⟨(c2_reject_at_limit 10 [3, 4] (by decide)).1,
   (c2_reject_at_limit 10 [3, 4] (by decide)).2 5 (some ⟨7, 10⟩) (by decide)⟩

/-- C3: once WINDOW_SECONDS have elapsed since the first request of the
current window (the record's expiry has passed), the next call is allowed
and re-creates the counter at count = 1, regardless of the previous
count. -/
theorem c3_reset_after_window (now : Nat) (r : CounterRecord)
    (h : r.expiry ≤ now) :
    check_and_increment now (some r) =
      (Decision.allow, some ⟨1, now + WINDOW_SECONDS⟩) := by
  simp [check_and_increment, Nat.not_lt.mpr h]

/-- C3 witness: a record at the full count 10 whose window expired at time
10 is replaced at time 12 by a fresh count-1 record. -/
theorem c3_reset_after_window_witness :
    check_and_increment 12 (some ⟨10, 10⟩) =
      (Decision.allow, some ⟨1, 12 + WINDOW_SECONDS⟩) :=
  c3_reset_after_window 12 ⟨10, 10⟩ (by decide)

/-- C4: whenever the limiter rejects, the pipeline short-circuits with HTTP
429 and body message "Too many requests, please try again later", the
downstream CRUD handler is not invoked, and the counter state is left
unchanged. -/
theorem c4_reject_short_circuits (now : Nat) (s : Option CounterRecord)
    (h : (check_and_increment now s).1 = Decision.reject) :
    runPipeline StoreOutcome.ok now s =
      ⟨false, some ⟨429, "Too many requests, please try again later"⟩, s⟩ := by
  match s with
  | none => simp [check_and_increment] at h
  | some r =>
      by_cases ht : now < r.expiry
      · by_cases hk : r.count < LIMIT
        · rw [check_step_allow now r.count r.expiry ht hk] at h
          exact absurd h (by simp)
        · simp [runPipeline, rateLimiterMiddleware,
            check_step_reject now r.count r.expiry ht hk]
      · rw [show check_and_increment now (some r) =
          (Decision.allow, some ⟨1, now + WINDOW_SECONDS⟩) from
          c3_reset_after_window now r (Nat.not_lt.mp ht)] at h
        exact absurd h (by simp)

/-- C4 witness: at time 5 against a full live window, the pipeline responds
429 with the rate-limit message and does not invoke the handler. -/
theorem c4_reject_short_circuits_witness :
    runPipeline StoreOutcome.ok 5 (some ⟨10, 10⟩) =
      ⟨false, some ⟨429, "Too many requests, please try again later"⟩,
       some ⟨10, 10⟩⟩ :=
  c4_reject_short_circuits 5 (some ⟨10, 10⟩) (by decide)

/-- C5: when the counter store raises on get/increment, the limiter fails
closed: the handler is not invoked and the caller receives HTTP 500 with
body message "Internal server error". -/
theorem c5_store_error_fails_closed (now : Nat) (s : Option CounterRecord) :
    runPipeline StoreOutcome.fails now s =
      ⟨false, some ⟨500, "Internal server error"⟩, s⟩ := rfl

/-- C6: invariant of the counter record: while the window is live the count
is monotonically non-decreasing and the expiry never moves (no mid-window
reset); exactly at window rollover the record is replaced by a fresh
count-1 record. -/
theorem c6_count_invariant (now : Nat) (r : CounterRecord) :
    (now < r.expiry →
      ∃ r', (check_and_increment now (some r)).2 = some r' ∧
        r.count ≤ r'.count ∧ r'.expiry = r.expiry) ∧
    (r.expiry ≤ now →
      (check_and_increment now (some r)).2 =
        some ⟨1, now + WINDOW_SECONDS⟩) := by
  constructor
  · intro ht
    by_cases hk : r.count < LIMIT
    · exact ⟨⟨r.count + 1, r.expiry⟩,
        by rw [check_step_allow now r.count r.expiry ht hk],
        Nat.le_succ _, rfl⟩
    · exact ⟨r, by rw [check_step_reject now r.count r.expiry ht hk],
        Nat.le_refl _, rfl⟩
  · intro ht
    rw [c3_reset_after_window now r ht]

/-- C6 witness: a live record (count 3, expiry 10) at time 5 keeps its
expiry and does not decrease its count; an expired record (count 7, expiry
10) at time 12 is replaced by a count-1 record. -/
theorem c6_count_invariant_witness :
    (∃ r', (check_and_increment 5 (some ⟨3, 10⟩)).2 = some r' ∧
      3 ≤ r'.count ∧ r'.expiry = 10) ∧
    (check_and_increment 12 (some ⟨7, 10⟩)).2 =
      some ⟨1, 12 + WINDOW_SECONDS⟩ :=
  ⟨(c6_count_invariant 5 ⟨3, 10⟩).1 (by decide),
   (c6_count_invariant 12 ⟨7, 10⟩).2 (by decide)⟩

/-- C7: a burst at a window boundary — LIMIT calls at time 0 followed by
LIMIT calls at time WINDOW_SECONDS — is entirely allowed (2 × LIMIT allowed
requests across the boundary), while any request sequence starting from an
empty store whose timestamps all lie inside the first window admits at most
LIMIT allowed requests. -/
theorem c7_boundary_burst :
    (runCalls (List.replicate LIMIT 0 ++ List.replicate LIMIT WINDOW_SECONDS)
        none).1 = List.replicate (2 * LIMIT) Decision.allow ∧
    ∀ t0 ts, (∀ t ∈ ts, t < t0 + WINDOW_SECONDS) →
      numAllow (runCalls (t0 :: ts) none).1 ≤ LIMIT := by
  constructor
  · decide
  · intro t0 ts hwin
    have h1 : runCalls (t0 :: ts) none =
        (Decision.allow :: (runCalls ts (some ⟨1, t0 + WINDOW_SECONDS⟩)).1,
         (runCalls ts (some ⟨1, t0 + WINDOW_SECONDS⟩)).2) := rfl
    have h2 : numAllow
        (Decision.allow :: (runCalls ts (some ⟨1, t0 + WINDOW_SECONDS⟩)).1) =
        numAllow (runCalls ts (some ⟨1, t0 + WINDOW_SECONDS⟩)).1 + 1 := rfl
    rw [h1, h2]
    have hb := numAllow_runCalls_le ts 1 (t0 + WINDOW_SECONDS)
      (by decide) hwin
    have hL : 1 ≤ LIMIT := by decide
    omega

/-- C7 witness: the three calls 0, 1, 2 inside the first window admit at
most LIMIT allowed requests. -/
theorem c7_boundary_burst_witness :
    numAllow (runCalls (0 :: [1, 2]) none).1 ≤ LIMIT :=
  c7_boundary_burst.2 0 [1, 2] (by decide)

/-- C8: in both server entry variants the rate limiter is registered before
the notes router (for every NODE_ENV), and a request reaches the CRUD
handler only when the store round trip succeeded and the limiter allowed
it — so no handler runs on a request that has not first passed the
check. -/
theorem c8_limiter_before_routes :
    serverRegistrations.indexOf Registration.rateLimiterReg <
      serverRegistrations.indexOf Registration.notesRouter ∧
    (∀ production : Bool,
      (serverRegistrationsEnv production).indexOf Registration.rateLimiterReg <
        (serverRegistrationsEnv production).indexOf Registration.notesRouter) ∧
    ∀ out now s, (runPipeline out now s).handlerInvoked = true →
      out = StoreOutcome.ok ∧
        (check_and_increment now s).1 = Decision.allow := by
  refine ⟨by decide, fun production => by cases production <;> decide, ?_⟩
  intro out now s h
  match out with
  | StoreOutcome.fails => simp [runPipeline, rateLimiterMiddleware] at h
  | StoreOutcome.ok =>
      refine ⟨rfl, ?_⟩
      rcases hc : check_and_increment now s with ⟨d, s'⟩
      cases d
      · rfl
      · rw [show runPipeline StoreOutcome.ok now s =
          ⟨false, some ⟨429, "Too many requests, please try again later"⟩, s'⟩
          from by simp [runPipeline, rateLimiterMiddleware, hc]] at h
        exact absurd h (by simp)

/-- C8 witness: at time 0 against an empty store the handler is invoked,
so the limiter allowed the request. -/
theorem c8_limiter_before_routes_witness :
    StoreOutcome.ok = StoreOutcome.ok ∧
    (check_and_increment 0 none).1 = Decision.allow :=
  c8_limiter_before_routes.2.2 StoreOutcome.ok 0 none (by decide)

/-- C9: for an id with no matching note and no store error, `updateNote`
responds 200 with a null body and `deleteNote` responds 200 with the
deletion message; neither handler can ever respond 404 because their guards
test the truthiness of the handler functions themselves, whereas
`getNoteById` does respond 404 "Note not found" for a missing id. -/
theorem c9_update_delete_never_404 (db : List Note) (id : Nat)
    (title content : String) (h : findById db id = none) :
    (updateNote id title content db).1 = ⟨200, Body.nullBody⟩ ∧
    (deleteNote id db).1 = ⟨200, Body.msg "Note has been deleted"⟩ ∧
    (∀ db2 id2 t c, ((updateNote id2 t c db2).1).status ≠ 404 ∧
      ((deleteNote id2 db2).1).status ≠ 404) ∧
    getNoteById id db = ⟨404, Body.msg "Note not found"⟩ := by
  refine ⟨?_, ?_, ?_, ?_⟩
  · simp [updateNote, findByIdAndUpdate, h, jsFunctionTruthy]
  · simp [deleteNote, findByIdAndDelete, h, jsFunctionTruthy]
  · intro db2 id2 t c
    constructor
    · simp [updateNote, jsFunctionTruthy]
    · simp [deleteNote, jsFunctionTruthy]
  · simp [getNoteById, h]

/-- C9 witness: against the empty collection and id 0, `updateNote` gives
200 with a null body, `deleteNote` gives 200 with the deletion message, and
`getNoteById` gives 404. -/
theorem c9_update_delete_never_404_witness :
    (updateNote 0 "a" "b" []).1 = ⟨200, Body.nullBody⟩ ∧
    (deleteNote 0 []).1 = ⟨200, Body.msg "Note has been deleted"⟩ ∧
    getNoteById 0 [] = ⟨404, Body.msg "Note not found"⟩ :=
  ⟨(c9_update_delete_never_404 [] 0 "a" "b" rfl).1,
   (c9_update_delete_never_404 [] 0 "a" "b" rfl).2.1,
   (c9_update_delete_never_404 [] 0 "a" "b" rfl).2.2.2⟩

/-- C10: `getAllNotes` responds 200 with a list containing exactly the
stored notes, sorted by `createdAt` descending (newest first). -/
theorem c10_get_all_notes_sorted (db : List Note) :
    (getAllNotes db).status = 200 ∧
    ∃ ns, (getAllNotes db).body = Body.noteList ns ∧
      ns.Perm db ∧
      List.Sorted (fun a b => b.createdAt ≤ a.createdAt) ns := by
  refine ⟨rfl, db.insertionSort (fun a b => b.createdAt ≤ a.createdAt),
    rfl, List.perm_insertionSort _ db, ?_⟩
  haveI : IsTotal Note (fun a b => b.createdAt ≤ a.createdAt) :=
    ⟨fun a b => Nat.le_total b.createdAt a.createdAt⟩
  haveI : IsTrans Note (fun a b => b.createdAt ≤ a.createdAt) :=
    ⟨fun _ _ _ h1 h2 => Nat.le_trans h2 h1⟩
  exact List.sorted_insertionSort _ db

end ThinkBoard
